import Mathlib

/-!
Shallow embedding of `src/app/models.py` of the prescription-analyzer
repository: the data-model declarations (enums, persistent entities,
transient request shapes), their field-level validation constraints, the
default values applied at construction, and a small persistence layer for
the store-level invariants (email uniqueness, referential integrity,
listing medications by prescription) that the schema declares but whose
enforcement mechanism lives outside the shown source.

Modelling conventions:
* Python `str` is `String`, `int` is `Int`, `datetime` is an abstract
  instant modelled as `Nat`, `Decimal` is `Rat` (the claims concern only
  order comparisons, not decimal storage precision).
* `Optional[T]` is `Option T`.
* `Dict[str, Any]` (only used for `raw_response`) is modelled as an
  association list with opaque string values; the claims concern only its
  presence and emptiness.
* Each pydantic `Field` constraint (`max_length`, `gt`, `ge`, `le`)
  becomes one check in an `errors` function that returns the names of all
  violated fields, in declaration order, mirroring a pydantic
  `ValidationError` naming every offending field.  A record passes
  validation exactly when its error list is empty.
* `default` / `default_factory` values become explicit construction
  functions taking the required fields (and the current time `now` where
  `default_factory=datetime.utcnow` appears).
-/

namespace PrescriptionAnalyzer

/-- Wire enum `AnalysisStatus` from models.py lines 9-13. -/
inductive AnalysisStatus where
  | pending
  | processing
  | completed
  | failed
deriving DecidableEq, Repr

/-- String wire value of each `AnalysisStatus` member. -/
def AnalysisStatus.toWire : AnalysisStatus → String
  | .pending => "pending"
  | .processing => "processing"
  | .completed => "completed"
  | .failed => "failed"

/-- Parse a string into `AnalysisStatus` by wire value; unrecognized strings are rejected. -/
def AnalysisStatus.ofWire (s : String) : Option AnalysisStatus :=
  if s = "pending" then some .pending
  else if s = "processing" then some .processing
  else if s = "completed" then some .completed
  else if s = "failed" then some .failed
  else none

/-- Wire enum `MedicationType` from models.py lines 16-24. -/
inductive MedicationType where
  | tablet
  | capsule
  | syrup
  | injection
  | drops
  | cream
  | ointment
  | other
deriving DecidableEq, Repr

/-- String wire value of each `MedicationType` member. -/
def MedicationType.toWire : MedicationType → String
  | .tablet => "tablet"
  | .capsule => "capsule"
  | .syrup => "syrup"
  | .injection => "injection"
  | .drops => "drops"
  | .cream => "cream"
  | .ointment => "ointment"
  | .other => "other"

/-- Parse a string into `MedicationType` by wire value; unrecognized strings are rejected. -/
def MedicationType.ofWire (s : String) : Option MedicationType :=
  if s = "tablet" then some .tablet
  else if s = "capsule" then some .capsule
  else if s = "syrup" then some .syrup
  else if s = "injection" then some .injection
  else if s = "drops" then some .drops
  else if s = "cream" then some .cream
  else if s = "ointment" then some .ointment
  else if s = "other" then some .other
  else none

/-- Persistent model `User` (models.py lines 28-40), data fields only. -/
structure User where
  id : Option Int
  name : String
  email : String
  is_active : Bool
  created_at : Nat
  updated_at : Nat
deriving DecidableEq, Repr

/-- One field check: an empty contribution when the constraint holds, the field name
when it is violated. -/
def fieldErr (ok : Bool) (fname : String) : List String :=
  if ok then [] else [fname]

/-- Length check for an optional string field: absent values pass. -/
def optLenOk : Option String → Nat → Bool
  | none, _ => true
  | some s, n => s.length ≤ n

/-- The `ge=0` check on an optional integer field: absent values pass. -/
def optNonneg : Option Int → Bool
  | none => true
  | some w => 0 ≤ w

/-- The `ge=0.0, le=1.0` check on an optional `confidence_score`: absent values pass. -/
def optScoreOk : Option Rat → Bool
  | none => true
  | some q => 0 ≤ q && q ≤ 1

/-- The `ge=0, le=150` check on an optional `patient_age`: absent values pass. -/
def optAgeOk : Option Int → Bool
  | none => true
  | some a => 0 ≤ a && a ≤ 150

/-- Field-constraint violations of a `User` row: `name` max_length 100, `email` max_length 255. -/
def User.errors (u : User) : List String :=
  fieldErr (u.name.length ≤ 100) "name" ++
  fieldErr (u.email.length ≤ 255) "email"

/-- Construction of a `User` from the required fields `name` and `email`; defaults per
models.py lines 31-36: `id` None, `is_active` True, `created_at`/`updated_at` the
current time at construction. -/
def User.create (name email : String) (now : Nat) : User :=
  { id := none
    name := name
    email := email
    is_active := true
    created_at := now
    updated_at := now }

/-- Persistent model `PrescriptionImage` (models.py lines 43-62), data fields only. -/
structure PrescriptionImage where
  id : Option Int
  filename : String
  original_filename : String
  file_path : String
  file_size : Int
  mime_type : String
  width : Option Int
  height : Option Int
  upload_timestamp : Nat
  user_id : Int
deriving DecidableEq, Repr

/-- Field-constraint violations of a `PrescriptionImage` row, in declaration order:
max_lengths 255/255/500/100, `file_size` gt 0, `width`/`height` ge 0 when present. -/
def PrescriptionImage.errors (r : PrescriptionImage) : List String :=
  fieldErr (r.filename.length ≤ 255) "filename" ++
  fieldErr (r.original_filename.length ≤ 255) "original_filename" ++
  fieldErr (r.file_path.length ≤ 500) "file_path" ++
  fieldErr (0 < r.file_size) "file_size" ++
  fieldErr (r.mime_type.length ≤ 100) "mime_type" ++
  fieldErr (optNonneg r.width) "width" ++
  fieldErr (optNonneg r.height) "height"

/-- Persistent model `AnalysisSession` (models.py lines 65-93), data fields only. -/
structure AnalysisSession where
  id : Option Int
  status : AnalysisStatus
  started_at : Nat
  completed_at : Option Nat
  processing_time_seconds : Option Rat
  model_name : String
  model_version : Option String
  error_message : Option String
  error_code : Option String
  raw_response : Option (List (String × String))
  confidence_score : Option Rat
  user_id : Int
  image_id : Int
deriving DecidableEq, Repr

/-- Field-constraint violations of an `AnalysisSession` row, in declaration order:
`model_name` max_length 100, `model_version` max_length 50, `error_message`
max_length 1000, `error_code` max_length 50, `confidence_score` in [0, 1] when present. -/
def AnalysisSession.errors (s : AnalysisSession) : List String :=
  fieldErr (s.model_name.length ≤ 100) "model_name" ++
  fieldErr (optLenOk s.model_version 50) "model_version" ++
  fieldErr (optLenOk s.error_message 1000) "error_message" ++
  fieldErr (optLenOk s.error_code 50) "error_code" ++
  fieldErr (optScoreOk s.confidence_score) "confidence_score"

/-- Construction of an `AnalysisSession` from the required foreign keys; defaults per
models.py lines 68-88: `status` PENDING, `started_at` the current time, `completed_at`
None, `processing_time_seconds` None, `model_name` "gemini-flash", `model_version`
None, error fields None, `raw_response` the empty dict, `confidence_score` None. -/
def AnalysisSession.create (user_id image_id : Int) (now : Nat) : AnalysisSession :=
  { id := none
    status := .pending
    started_at := now
    completed_at := none
    processing_time_seconds := none
    model_name := "gemini-flash"
    model_version := none
    error_message := none
    error_code := none
    raw_response := some []
    confidence_score := none
    user_id := user_id
    image_id := image_id }

/-- Persistent model `Prescription` (models.py lines 96-128), data fields only. -/
structure Prescription where
  id : Option Int
  doctor_name : Option String
  doctor_license : Option String
  clinic_name : Option String
  clinic_address : Option String
  patient_name : Option String
  patient_age : Option Int
  patient_gender : Option String
  prescription_date : Option Nat
  prescription_number : Option String
  diagnosis : Option String
  notes : Option String
  created_at : Nat
  updated_at : Nat
  image_id : Int
  analysis_session_id : Int
deriving DecidableEq, Repr

/-- Field-constraint violations of a `Prescription` row, in declaration order:
max_lengths on the optional strings, `patient_age` in [0, 150] when present. -/
def Prescription.errors (p : Prescription) : List String :=
  fieldErr (optLenOk p.doctor_name 200) "doctor_name" ++
  fieldErr (optLenOk p.doctor_license 100) "doctor_license" ++
  fieldErr (optLenOk p.clinic_name 200) "clinic_name" ++
  fieldErr (optLenOk p.clinic_address 500) "clinic_address" ++
  fieldErr (optLenOk p.patient_name 200) "patient_name" ++
  fieldErr (optAgeOk p.patient_age) "patient_age" ++
  fieldErr (optLenOk p.patient_gender 20) "patient_gender" ++
  fieldErr (optLenOk p.prescription_number 100) "prescription_number" ++
  fieldErr (optLenOk p.diagnosis 1000) "diagnosis" ++
  fieldErr (optLenOk p.notes 2000) "notes"

/-- Persistent model `Medication` (models.py lines 131-165), data fields only. -/
structure Medication where
  id : Option Int
  name : String
  generic_name : Option String
  brand_name : Option String
  medication_type : Option MedicationType
  strength : Option String
  dosage_form : Option String
  dosage_instructions : Option String
  frequency : Option String
  duration : Option String
  quantity : Option String
  before_after_meal : Option String
  special_instructions : Option String
  order_index : Int
  confidence_score : Option Rat
  created_at : Nat
  prescription_id : Int
deriving DecidableEq, Repr

/-- Field-constraint violations of a `Medication` row, in declaration order:
max_lengths on the strings, `order_index` ge 0, `confidence_score` in [0, 1] when present. -/
def Medication.errors (m : Medication) : List String :=
  fieldErr (m.name.length ≤ 200) "name" ++
  fieldErr (optLenOk m.generic_name 200) "generic_name" ++
  fieldErr (optLenOk m.brand_name 200) "brand_name" ++
  fieldErr (optLenOk m.strength 100) "strength" ++
  fieldErr (optLenOk m.dosage_form 100) "dosage_form" ++
  fieldErr (optLenOk m.dosage_instructions 500) "dosage_instructions" ++
  fieldErr (optLenOk m.frequency 200) "frequency" ++
  fieldErr (optLenOk m.duration 200) "duration" ++
  fieldErr (optLenOk m.quantity 100) "quantity" ++
  fieldErr (optLenOk m.before_after_meal 100) "before_after_meal" ++
  fieldErr (optLenOk m.special_instructions 1000) "special_instructions" ++
  fieldErr (0 ≤ m.order_index) "order_index" ++
  fieldErr (optScoreOk m.confidence_score) "confidence_score"

/-- Transient shape `UserCreate` (models.py lines 169-171): caller supplies only
`name` and `email`. -/
structure UserCreate where
  name : String
  email : String
deriving DecidableEq, Repr

/-- Transient shape `PrescriptionImageUpload` (models.py lines 182-187). -/
structure PrescriptionImageUpload where
  filename : String
  file_size : Int
  mime_type : String
  width : Option Int
  height : Option Int
deriving DecidableEq, Repr

/-- Field-constraint violations of a `PrescriptionImageUpload`, in declaration order:
`filename` max_length 255, `file_size` gt 0, `mime_type` max_length 100,
`width`/`height` ge 0 when present. -/
def PrescriptionImageUpload.errors (r : PrescriptionImageUpload) : List String :=
  fieldErr (r.filename.length ≤ 255) "filename" ++
  fieldErr (0 < r.file_size) "file_size" ++
  fieldErr (r.mime_type.length ≤ 100) "mime_type" ++
  fieldErr (optNonneg r.width) "width" ++
  fieldErr (optNonneg r.height) "height"

/-- Transient shape `AnalysisSessionCreate` (models.py lines 201-204): caller supplies
`image_id`, `model_name` (default "gemini-flash") and `model_version` (default None). -/
structure AnalysisSessionCreate where
  image_id : Int
  model_name : String
  model_version : Option String
deriving DecidableEq, Repr

/-- Transient shape `MedicationCreate` (models.py lines 218-232). -/
structure MedicationCreate where
  name : String
  generic_name : Option String
  brand_name : Option String
  medication_type : Option MedicationType
  strength : Option String
  dosage_form : Option String
  dosage_instructions : Option String
  frequency : Option String
  duration : Option String
  quantity : Option String
  before_after_meal : Option String
  special_instructions : Option String
  order_index : Int
  confidence_score : Option Rat
deriving DecidableEq, Repr

/-- Field-constraint violations of a `MedicationCreate`, in declaration order, mirroring
the constraints of `Medication`: max_lengths, `order_index` ge 0, `confidence_score`
in [0, 1] when present. -/
def MedicationCreate.errors (m : MedicationCreate) : List String :=
  fieldErr (m.name.length ≤ 200) "name" ++
  fieldErr (optLenOk m.generic_name 200) "generic_name" ++
  fieldErr (optLenOk m.brand_name 200) "brand_name" ++
  fieldErr (optLenOk m.strength 100) "strength" ++
  fieldErr (optLenOk m.dosage_form 100) "dosage_form" ++
  fieldErr (optLenOk m.dosage_instructions 500) "dosage_instructions" ++
  fieldErr (optLenOk m.frequency 200) "frequency" ++
  fieldErr (optLenOk m.duration 200) "duration" ++
  fieldErr (optLenOk m.quantity 100) "quantity" ++
  fieldErr (optLenOk m.before_after_meal 100) "before_after_meal" ++
  fieldErr (optLenOk m.special_instructions 1000) "special_instructions" ++
  fieldErr (0 ≤ m.order_index) "order_index" ++
  fieldErr (optScoreOk m.confidence_score) "confidence_score"

/-- Construction of a `MedicationCreate` from the required field `name`; defaults per
models.py lines 219-232: every optional field None, `order_index` 0. -/
def MedicationCreate.create (name : String) : MedicationCreate :=
  { name := name
    generic_name := none
    brand_name := none
    medication_type := none
    strength := none
    dosage_form := none
    dosage_instructions := none
    frequency := none
    duration := none
    quantity := none
    before_after_meal := none
    special_instructions := none
    order_index := 0
    confidence_score := none }

/-- Transient shape `PrescriptionCreate` (models.py lines 253-267). -/
structure PrescriptionCreate where
  doctor_name : Option String
  doctor_license : Option String
  clinic_name : Option String
  clinic_address : Option String
  patient_name : Option String
  patient_age : Option Int
  patient_gender : Option String
  prescription_date : Option Nat
  prescription_number : Option String
  diagnosis : Option String
  notes : Option String
  image_id : Int
  analysis_session_id : Int
  medications : List MedicationCreate
deriving DecidableEq, Repr

/-- Field-constraint violations of a `PrescriptionCreate`, in declaration order,
mirroring the constraints of `Prescription`. -/
def PrescriptionCreate.errors (p : PrescriptionCreate) : List String :=
  fieldErr (optLenOk p.doctor_name 200) "doctor_name" ++
  fieldErr (optLenOk p.doctor_license 100) "doctor_license" ++
  fieldErr (optLenOk p.clinic_name 200) "clinic_name" ++
  fieldErr (optLenOk p.clinic_address 500) "clinic_address" ++
  fieldErr (optLenOk p.patient_name 200) "patient_name" ++
  fieldErr (optAgeOk p.patient_age) "patient_age" ++
  fieldErr (optLenOk p.patient_gender 20) "patient_gender" ++
  fieldErr (optLenOk p.prescription_number 100) "prescription_number" ++
  fieldErr (optLenOk p.diagnosis 1000) "diagnosis" ++
  fieldErr (optLenOk p.notes 2000) "notes"

/-- Construction of a `PrescriptionCreate` from the required foreign keys; defaults per
models.py lines 254-267: every optional field None, `medications` the empty list. -/
def PrescriptionCreate.create (image_id analysis_session_id : Int) : PrescriptionCreate :=
  { doctor_name := none
    doctor_license := none
    clinic_name := none
    clinic_address := none
    patient_name := none
    patient_age := none
    patient_gender := none
    prescription_date := none
    prescription_number := none
    diagnosis := none
    notes := none
    image_id := image_id
    analysis_session_id := analysis_session_id
    medications := [] }

/-- Modelled from the spec: the error taxonomy of section 7 of the spec — the source
shows only the schema declarations, not the persistence layer that raises these.
`validation` carries the offending field names; `referential` names the foreign-key
field whose parent row is missing. -/
inductive DBError where
  | validation (fields : List String)
  | referential (field : String)
deriving DecidableEq, Repr

/-- Modelled from the spec: the store implied by the persistence boundary of spec
section 6 — one table per persistent entity plus the next primary-key value to
assign.  The source declares only the schema; create/fetch operations live in an
unseen layer. -/
structure DB where
  nextId : Int
  users : List User
  images : List PrescriptionImage
  sessions : List AnalysisSession
  prescriptions : List Prescription
  medications : List Medication
deriving DecidableEq, Repr

/-- Modelled from the spec: the store before any insert. -/
def DB.empty : DB :=
  { nextId := 1
    users := []
    images := []
    sessions := []
    prescriptions := []
    medications := [] }

/-- Whether some row of the list carries the given assigned primary key. -/
def rowsHaveId {α : Type} (getId : α → Option Int) (l : List α) (i : Int) : Bool :=
  l.any fun r => getId r = some i

/-- Whether the store has a `User` row with primary key `i`. -/
def DB.hasUserId (db : DB) (i : Int) : Bool :=
  rowsHaveId User.id db.users i

/-- Whether the store has a `PrescriptionImage` row with primary key `i`. -/
def DB.hasImageId (db : DB) (i : Int) : Bool :=
  rowsHaveId PrescriptionImage.id db.images i

/-- Whether the store has an `AnalysisSession` row with primary key `i`. -/
def DB.hasSessionId (db : DB) (i : Int) : Bool :=
  rowsHaveId AnalysisSession.id db.sessions i

/-- Whether the store has a `Prescription` row with primary key `i`. -/
def DB.hasPrescriptionId (db : DB) (i : Int) : Bool :=
  rowsHaveId Prescription.id db.prescriptions i

/-- Modelled from the spec: inserting a `User` — field validation first (spec section
4.1), then the `unique=True` constraint on `email` (models.py line 33), surfaced as a
ValidationError naming the field (spec section 7 counts uniqueness among validation
constraints); on success the row is stored with the next primary key. -/
def DB.insertUser (db : DB) (u : User) : Except DBError DB :=
  if u.errors = [] then
    if db.users.any fun v => v.email = u.email then
      .error (.validation ["email"])
    else
      .ok { db with
              nextId := db.nextId + 1
              users := { u with id := some db.nextId } :: db.users }
  else .error (.validation u.errors)

/-- Modelled from the spec: inserting a `PrescriptionImage` — field validation, then
the `user_id` foreign key (models.py line 57) must reference an existing `User` row,
else a ReferentialError before any write. -/
def DB.insertImage (db : DB) (r : PrescriptionImage) : Except DBError DB :=
  if r.errors = [] then
    if db.hasUserId r.user_id then
      .ok { db with
              nextId := db.nextId + 1
              images := { r with id := some db.nextId } :: db.images }
    else .error (.referential "user_id")
  else .error (.validation r.errors)

/-- Modelled from the spec: inserting an `AnalysisSession` — field validation, then
the `user_id` and `image_id` foreign keys (models.py lines 87-88) must reference
existing parent rows, else a ReferentialError before any write. -/
def DB.insertSession (db : DB) (s : AnalysisSession) : Except DBError DB :=
  if s.errors = [] then
    if db.hasUserId s.user_id then
      if db.hasImageId s.image_id then
        .ok { db with
                nextId := db.nextId + 1
                sessions := { s with id := some db.nextId } :: db.sessions }
      else .error (.referential "image_id")
    else .error (.referential "user_id")
  else .error (.validation s.errors)

/-- Modelled from the spec: inserting a `Prescription` — field validation, then the
`image_id` and `analysis_session_id` foreign keys (models.py lines 122-123) must
reference existing parent rows, else a ReferentialError before any write. -/
def DB.insertPrescription (db : DB) (p : Prescription) : Except DBError DB :=
  if p.errors = [] then
    if db.hasImageId p.image_id then
      if db.hasSessionId p.analysis_session_id then
        .ok { db with
                nextId := db.nextId + 1
                prescriptions := { p with id := some db.nextId } :: db.prescriptions }
      else .error (.referential "analysis_session_id")
    else .error (.referential "image_id")
  else .error (.validation p.errors)

/-- Modelled from the spec: inserting a `Medication` — field validation, then the
`prescription_id` foreign key (models.py line 162) must reference an existing
`Prescription` row, else a ReferentialError before any write. -/
def DB.insertMedication (db : DB) (m : Medication) : Except DBError DB :=
  if m.errors = [] then
    if db.hasPrescriptionId m.prescription_id then
      .ok { db with
              nextId := db.nextId + 1
              medications := { m with id := some db.nextId } :: db.medications }
    else .error (.referential "prescription_id")
  else .error (.validation m.errors)

/-- Modelled from the spec: the store states reachable from the empty store by
successful inserts — the create operations the persistence boundary implies. -/
inductive DB.Reachable : DB → Prop where
  | empty : DB.Reachable DB.empty
  | user {db db' : DB} {u : User} :
      DB.Reachable db → db.insertUser u = .ok db' → DB.Reachable db'
  | image {db db' : DB} {r : PrescriptionImage} :
      DB.Reachable db → db.insertImage r = .ok db' → DB.Reachable db'
  | session {db db' : DB} {s : AnalysisSession} :
      DB.Reachable db → db.insertSession s = .ok db' → DB.Reachable db'
  | prescription {db db' : DB} {p : Prescription} :
      DB.Reachable db → db.insertPrescription p = .ok db' → DB.Reachable db'
  | medication {db db' : DB} {m : Medication} :
      DB.Reachable db → db.insertMedication m = .ok db' → DB.Reachable db'

/-- No two `User` rows of the store share an email. -/
def DB.emailsUnique (db : DB) : Prop :=
  (db.users.map User.email).Pairwise (· ≠ ·)

/-- Every stored foreign key references an existing parent row. -/
def DB.fkIntact (db : DB) : Prop :=
  (∀ r ∈ db.images, db.hasUserId r.user_id = true) ∧
  (∀ s ∈ db.sessions, db.hasUserId s.user_id = true ∧ db.hasImageId s.image_id = true) ∧
  (∀ p ∈ db.prescriptions,
      db.hasImageId p.image_id = true ∧ db.hasSessionId p.analysis_session_id = true) ∧
  (∀ m ∈ db.medications, db.hasPrescriptionId m.prescription_id = true)

/-- Display order of medications: lower `order_index` first (models.py line 157). -/
def Medication.le (a b : Medication) : Prop :=
  a.order_index ≤ b.order_index

instance : DecidableRel Medication.le :=
  fun a b => inferInstanceAs (Decidable (a.order_index ≤ b.order_index))

instance : IsTotal Medication Medication.le :=
  ⟨fun a b => le_total a.order_index b.order_index⟩

instance : IsTrans Medication Medication.le :=
  ⟨fun _ _ _ hab hbc => le_trans hab hbc⟩

/-- Modelled from the spec: listing the medications of a prescription (the
list-by-parent-foreign-key operation of spec section 6), returned ordered by
`order_index`. -/
def DB.listMedications (db : DB) (pid : Int) : List Medication :=
  List.insertionSort Medication.le
    (db.medications.filter fun m => m.prescription_id = pid)

/-- Concrete medication row used in witnesses, following the Amoxicillin example of
the spec. -/
def sampleMedication : Medication :=
  { id := none
    name := "Amoxicillin"
    generic_name := none
    brand_name := none
    medication_type := none
    strength := none
    dosage_form := none
    dosage_instructions := none
    frequency := none
    duration := none
    quantity := none
    before_after_meal := none
    special_instructions := none
    order_index := 0
    confidence_score := none
    created_at := 0
    prescription_id := 1 }

/-- Concrete prescription row used in witnesses: every optional field absent. -/
def samplePrescription : Prescription :=
  { id := none
    doctor_name := none
    doctor_license := none
    clinic_name := none
    clinic_address := none
    patient_name := none
    patient_age := none
    patient_gender := none
    prescription_date := none
    prescription_number := none
    diagnosis := none
    notes := none
    created_at := 0
    updated_at := 0
    image_id := 1
    analysis_session_id := 1 }

/-- Concrete image row used in witnesses. -/
def sampleImage : PrescriptionImage :=
  { id := none
    filename := "rx.png"
    original_filename := "rx.png"
    file_path := "/uploads/rx.png"
    file_size := 1
    mime_type := "image/png"
    width := none
    height := none
    upload_timestamp := 0
    user_id := 1 }

/-- Concrete upload shape used in witnesses. -/
def sampleUpload : PrescriptionImageUpload :=
  { filename := "rx.png"
    file_size := 1
    mime_type := "image/png"
    width := none
    height := none }

/-- Store holding exactly one user row, used in witnesses. -/
def dbOneUser : DB :=
  { nextId := 2
    users := [{ User.create "Jane Doe" "jane@example.com" 0 with id := some 1 }]
    images := []
    sessions := []
    prescriptions := []
    medications := [] }

/-- Store holding one row of each parent table down to a prescription, used in
witnesses. -/
def dbOnePrescription : DB :=
  { nextId := 5
    users := [{ User.create "Jane Doe" "jane@example.com" 0 with id := some 1 }]
    images := [{ sampleImage with id := some 2 }]
    sessions := [{ AnalysisSession.create 1 2 0 with id := some 3 }]
    prescriptions :=
      [{ samplePrescription with id := some 4, image_id := 2, analysis_session_id := 3 }]
    medications := [] }

lemma mem_fieldErr {s fname : String} {ok : Bool} :
    s ∈ fieldErr ok fname ↔ ok = false ∧ s = fname := by
  cases ok <;> simp [fieldErr]

lemma optScoreOk_some {q : Rat} : optScoreOk (some q) = true ↔ (0 ≤ q ∧ q ≤ 1) := by
  simp [optScoreOk]

lemma optScoreOk_out {q : Rat} (h : q < 0 ∨ 1 < q) : optScoreOk (some q) = false := by
  rw [Bool.eq_false_iff]
  intro ht
  rcases optScoreOk_some.mp ht with ⟨h1, h2⟩
  rcases h with h | h <;> linarith

lemma optScoreOk_boundary {q : Rat} (h : q = 0 ∨ q = 1) : optScoreOk (some q) = true := by
  rcases h with rfl | rfl <;> simp [optScoreOk]

/-- C1: wherever `confidence_score` is present on `AnalysisSession`, `Medication` or
`MedicationCreate`, validation reports the field `confidence_score` exactly for values
strictly below 0 or strictly above 1; the boundary values 0 and 1 contribute no
validation error for that field. -/
theorem C1_confidence_score_bounds :
    (∀ (s : AnalysisSession) (q : Rat), s.confidence_score = some q →
        (q < 0 ∨ 1 < q) → "confidence_score" ∈ s.errors) ∧
    (∀ (s : AnalysisSession) (q : Rat), s.confidence_score = some q →
        (q = 0 ∨ q = 1) → "confidence_score" ∉ s.errors) ∧
    (∀ (m : Medication) (q : Rat), m.confidence_score = some q →
        (q < 0 ∨ 1 < q) → "confidence_score" ∈ m.errors) ∧
    (∀ (m : Medication) (q : Rat), m.confidence_score = some q →
        (q = 0 ∨ q = 1) → "confidence_score" ∉ m.errors) ∧
    (∀ (c : MedicationCreate) (q : Rat), c.confidence_score = some q →
        (q < 0 ∨ 1 < q) → "confidence_score" ∈ c.errors) ∧
    (∀ (c : MedicationCreate) (q : Rat), c.confidence_score = some q →
        (q = 0 ∨ q = 1) → "confidence_score" ∉ c.errors) := by
  refine ⟨?_, ?_, ?_, ?_, ?_, ?_⟩ <;> intro x q hq hb
  · simp [AnalysisSession.errors, mem_fieldErr, hq, optScoreOk_out hb]
  · simp [AnalysisSession.errors, mem_fieldErr, hq, optScoreOk_boundary hb]
  · simp [Medication.errors, mem_fieldErr, hq, optScoreOk_out hb]
  · simp [Medication.errors, mem_fieldErr, hq, optScoreOk_boundary hb]
  · simp [MedicationCreate.errors, mem_fieldErr, hq, optScoreOk_out hb]
  · simp [MedicationCreate.errors, mem_fieldErr, hq, optScoreOk_boundary hb]

/-- Witness for C1 at concrete inputs: 3/2 and -1/10 are rejected with the field named;
the boundaries 1 and 0 contribute no error. -/
theorem C1_confidence_score_bounds_witness :
    ("confidence_score" ∈ AnalysisSession.errors
        { AnalysisSession.create 1 1 0 with confidence_score := some (3/2) }) ∧
    ("confidence_score" ∉ AnalysisSession.errors
        { AnalysisSession.create 1 1 0 with confidence_score := some 1 }) ∧
    ("confidence_score" ∈ Medication.errors
        { sampleMedication with confidence_score := some (-(1/10)) }) ∧
    ("confidence_score" ∉ Medication.errors
        { sampleMedication with confidence_score := some 0 }) ∧
    ("confidence_score" ∈ MedicationCreate.errors
        { MedicationCreate.create "Amoxicillin" with confidence_score := some (3/2) }) ∧
    ("confidence_score" ∉ MedicationCreate.errors
        { MedicationCreate.create "Amoxicillin" with confidence_score := some 1 }) :=
  ⟨C1_confidence_score_bounds.1 _ _ rfl (Or.inr (by norm_num)),
   C1_confidence_score_bounds.2.1 _ _ rfl (Or.inr rfl),
   C1_confidence_score_bounds.2.2.1 _ _ rfl (Or.inl (by norm_num)),
   C1_confidence_score_bounds.2.2.2.1 _ _ rfl (Or.inl rfl),
   C1_confidence_score_bounds.2.2.2.2.1 _ _ rfl (Or.inr (by norm_num)),
   C1_confidence_score_bounds.2.2.2.2.2 _ _ rfl (Or.inr rfl)⟩

/-- C4: constructing a `User` from only `name` and `email` defaults `is_active` to
true and both timestamps to the current time at construction; constructing an
`AnalysisSession` without an explicit status defaults `status` to pending with
`completed_at` absent. -/
theorem C4_construction_defaults :
    (∀ (name email : String) (now : Nat),
        (User.create name email now).is_active = true ∧
        (User.create name email now).created_at = now ∧
        (User.create name email now).updated_at = now) ∧
    (∀ (uid iid : Int) (now : Nat),
        (AnalysisSession.create uid iid now).status = AnalysisStatus.pending ∧
        (AnalysisSession.create uid iid now).completed_at = none) :=
  ⟨fun _ _ _ => ⟨rfl, rfl, rfl⟩, fun _ _ _ => ⟨rfl, rfl⟩⟩

/-- C5: for `PrescriptionImage` and `PrescriptionImageUpload`, validation reports the
field `file_size` for zero and every negative value, and reports nothing for that
field at `file_size` 1. -/
theorem C5_file_size_positive :
    (∀ r : PrescriptionImage, r.file_size ≤ 0 → "file_size" ∈ r.errors) ∧
    (∀ r : PrescriptionImage, r.file_size = 1 → "file_size" ∉ r.errors) ∧
    (∀ r : PrescriptionImageUpload, r.file_size ≤ 0 → "file_size" ∈ r.errors) ∧
    (∀ r : PrescriptionImageUpload, r.file_size = 1 → "file_size" ∉ r.errors) := by
  refine ⟨?_, ?_, ?_, ?_⟩ <;> intro r h
  · simp [PrescriptionImage.errors, mem_fieldErr, not_lt.mpr h]
  · simp [PrescriptionImage.errors, mem_fieldErr, h]
  · simp [PrescriptionImageUpload.errors, mem_fieldErr, not_lt.mpr h]
  · simp [PrescriptionImageUpload.errors, mem_fieldErr, h]

/-- Witness for C5 at concrete inputs: file sizes 0 and -7 are rejected with the field
named; file size 1 is accepted. -/
theorem C5_file_size_positive_witness :
    ("file_size" ∈ PrescriptionImage.errors { sampleImage with file_size := 0 }) ∧
    ("file_size" ∉ PrescriptionImage.errors sampleImage) ∧
    ("file_size" ∈ PrescriptionImageUpload.errors { sampleUpload with file_size := -7 }) ∧
    ("file_size" ∉ PrescriptionImageUpload.errors sampleUpload) :=
  ⟨C5_file_size_positive.1 _ (by norm_num),
   C5_file_size_positive.2.1 _ rfl,
   C5_file_size_positive.2.2.1 _ (by norm_num),
   C5_file_size_positive.2.2.2 _ rfl⟩

lemma optAgeOk_some {a : Int} : optAgeOk (some a) = true ↔ (0 ≤ a ∧ a ≤ 150) := by
  simp [optAgeOk]

lemma optAgeOk_out {a : Int} (h : a < 0 ∨ 150 < a) : optAgeOk (some a) = false := by
  rw [Bool.eq_false_iff]
  intro ht
  rcases optAgeOk_some.mp ht with ⟨h1, h2⟩
  rcases h with h | h <;> linarith

/-- C9: wherever `patient_age` is present on `Prescription` or `PrescriptionCreate`,
validation reports the field `patient_age` exactly for values below 0 or above 150;
every value in [0, 150], the boundaries included, contributes no error for that
field. -/
theorem C9_patient_age_bounds :
    (∀ (p : Prescription) (a : Int), p.patient_age = some a →
        (a < 0 ∨ 150 < a) → "patient_age" ∈ p.errors) ∧
    (∀ (p : Prescription) (a : Int), p.patient_age = some a →
        0 ≤ a → a ≤ 150 → "patient_age" ∉ p.errors) ∧
    (∀ (c : PrescriptionCreate) (a : Int), c.patient_age = some a →
        (a < 0 ∨ 150 < a) → "patient_age" ∈ c.errors) ∧
    (∀ (c : PrescriptionCreate) (a : Int), c.patient_age = some a →
        0 ≤ a → a ≤ 150 → "patient_age" ∉ c.errors) := by
  refine ⟨?_, ?_, ?_, ?_⟩
  · intro p a hp hb
    simp [Prescription.errors, mem_fieldErr, hp, optAgeOk_out hb]
  · intro p a hp h0 h150
    simp [Prescription.errors, mem_fieldErr, hp, optAgeOk_some.mpr ⟨h0, h150⟩]
  · intro c a hc hb
    simp [PrescriptionCreate.errors, mem_fieldErr, hc, optAgeOk_out hb]
  · intro c a hc h0 h150
    simp [PrescriptionCreate.errors, mem_fieldErr, hc, optAgeOk_some.mpr ⟨h0, h150⟩]

/-- Witness for C9 at concrete inputs: ages -1 and 151 are rejected with the field
named; the boundary ages 0 and 150 are accepted. -/
theorem C9_patient_age_bounds_witness :
    ("patient_age" ∈ Prescription.errors { samplePrescription with patient_age := some (-1) }) ∧
    ("patient_age" ∉ Prescription.errors { samplePrescription with patient_age := some 150 }) ∧
    ("patient_age" ∈ PrescriptionCreate.errors
        { PrescriptionCreate.create 1 1 with patient_age := some 151 }) ∧
    ("patient_age" ∉ PrescriptionCreate.errors
        { PrescriptionCreate.create 1 1 with patient_age := some 0 }) :=
  ⟨C9_patient_age_bounds.1 _ _ rfl (Or.inl (by norm_num)),
   C9_patient_age_bounds.2.1 _ _ rfl (by norm_num) (by norm_num),
   C9_patient_age_bounds.2.2.1 _ _ rfl (Or.inr (by norm_num)),
   C9_patient_age_bounds.2.2.2 _ _ rfl (by norm_num) (by norm_num)⟩

/-- C10: an `AnalysisSession` constructed without an explicit `raw_response` carries
the empty mapping, present rather than absent, and a `PrescriptionCreate` constructed
without `medications` carries the empty list. -/
theorem C10_empty_container_defaults :
    (∀ (uid iid : Int) (now : Nat),
        (AnalysisSession.create uid iid now).raw_response = some []) ∧
    (∀ iid sid : Int, (PrescriptionCreate.create iid sid).medications = []) :=
  ⟨fun _ _ _ => rfl, fun _ _ => rfl⟩

/-- C6: the wire values of `AnalysisStatus` are exactly pending, processing,
completed, failed, and those of `MedicationType` are exactly tablet, capsule, syrup,
injection, drops, cream, ointment, other; parsing accepts exactly these strings and
never coerces a string to a member with a different wire value. -/
theorem C6_enum_wire_values :
    (∀ a : AnalysisStatus, AnalysisStatus.ofWire a.toWire = some a) ∧
    (∀ (s : String) (a : AnalysisStatus), AnalysisStatus.ofWire s = some a → s = a.toWire) ∧
    (∀ s : String, (AnalysisStatus.ofWire s).isSome = true ↔
        s ∈ ["pending", "processing", "completed", "failed"]) ∧
    (∀ t : MedicationType, MedicationType.ofWire t.toWire = some t) ∧
    (∀ (s : String) (t : MedicationType), MedicationType.ofWire s = some t → s = t.toWire) ∧
    (∀ s : String, (MedicationType.ofWire s).isSome = true ↔
        s ∈ ["tablet", "capsule", "syrup", "injection", "drops", "cream",
             "ointment", "other"]) := by
  refine ⟨?_, ?_, ?_, ?_, ?_, ?_⟩
  · intro a; cases a <;> rfl
  · intro s a h
    unfold AnalysisStatus.ofWire at h
    split_ifs at h <;>
      first
        | exact Option.noConfusion h
        | (injection h with h5; subst h5; simp_all [AnalysisStatus.toWire])
  · intro s
    unfold AnalysisStatus.ofWire
    split_ifs <;> simp_all
  · intro t; cases t <;> rfl
  · intro s t h
    unfold MedicationType.ofWire at h
    split_ifs at h <;>
      first
        | exact Option.noConfusion h
        | (injection h with h5; subst h5; simp_all [MedicationType.toWire])
  · intro s
    unfold MedicationType.ofWire
    split_ifs <;> simp_all

/-- Witness for C6 at concrete inputs: the accepted strings "pending" and "tablet"
parse to the members carrying those very wire values. -/
theorem C6_enum_wire_values_witness :
    "pending" = AnalysisStatus.toWire .pending ∧ "tablet" = MedicationType.toWire .tablet :=
  ⟨C6_enum_wire_values.2.1 "pending" .pending rfl,
   C6_enum_wire_values.2.2.2.2.1 "tablet" .tablet rfl⟩

/-- C8: each Create request shape carries exactly its caller-suppliable fields — the
projection onto those fields is a bijection — and none of them carries the primary key
or a construction timestamp; in particular `UserCreate` is exactly (name, email) and
`AnalysisSessionCreate` is exactly (image_id, model_name, model_version). -/
theorem C8_create_shapes_carry_exact_fields :
    Function.Bijective (fun u : UserCreate => (u.name, u.email)) ∧
    Function.Bijective
      (fun c : AnalysisSessionCreate => (c.image_id, c.model_name, c.model_version)) ∧
    Function.Bijective
      (fun r : PrescriptionImageUpload =>
        (r.filename, r.file_size, r.mime_type, r.width, r.height)) ∧
    Function.Bijective
      (fun m : MedicationCreate =>
        (m.name, m.generic_name, m.brand_name, m.medication_type, m.strength,
         m.dosage_form, m.dosage_instructions, m.frequency, m.duration, m.quantity,
         m.before_after_meal, m.special_instructions, m.order_index,
         m.confidence_score)) ∧
    Function.Bijective
      (fun p : PrescriptionCreate =>
        (p.doctor_name, p.doctor_license, p.clinic_name, p.clinic_address,
         p.patient_name, p.patient_age, p.patient_gender, p.prescription_date,
         p.prescription_number, p.diagnosis, p.notes, p.image_id,
         p.analysis_session_id, p.medications)) := by
  refine ⟨⟨?_, ?_⟩, ⟨?_, ?_⟩, ⟨?_, ?_⟩, ⟨?_, ?_⟩, ⟨?_, ?_⟩⟩
  · intro a b h; cases a; cases b; simpa using h
  · rintro ⟨n, e⟩; exact ⟨⟨n, e⟩, rfl⟩
  · intro a b h; cases a; cases b; simpa using h
  · rintro ⟨i, mn, mv⟩; exact ⟨⟨i, mn, mv⟩, rfl⟩
  · intro a b h; cases a; cases b; simpa using h
  · rintro ⟨f, fs, mt, w, ht⟩; exact ⟨⟨f, fs, mt, w, ht⟩, rfl⟩
  · intro a b h; cases a; cases b; simpa using h
  · rintro ⟨a1, a2, a3, a4, a5, a6, a7, a8, a9, a10, a11, a12, a13, a14⟩
    exact ⟨⟨a1, a2, a3, a4, a5, a6, a7, a8, a9, a10, a11, a12, a13, a14⟩, rfl⟩
  · intro a b h; cases a; cases b; simpa using h
  · rintro ⟨a1, a2, a3, a4, a5, a6, a7, a8, a9, a10, a11, a12, a13, a14⟩
    exact ⟨⟨a1, a2, a3, a4, a5, a6, a7, a8, a9, a10, a11, a12, a13, a14⟩, rfl⟩

/-- Witness for C8 at a concrete input: the `UserCreate` projection is injective at the
example user of the spec. -/
theorem C8_create_shapes_carry_exact_fields_witness :
    (⟨"Jane Doe", "jane@example.com"⟩ : UserCreate) = ⟨"Jane Doe", "jane@example.com"⟩ :=
  C8_create_shapes_carry_exact_fields.1.1 rfl

lemma rowsHaveId_mono {α : Type} (g : α → Option Int) (r : α) (l : List α) (i : Int)
    (h : rowsHaveId g l i = true) : rowsHaveId g (r :: l) i = true := by
  simp only [rowsHaveId, List.any_cons, Bool.or_eq_true]
  exact Or.inr h

lemma insertUser_ok {db db' : DB} {u : User} (h : db.insertUser u = .ok db') :
    u.errors = [] ∧ (∀ v ∈ db.users, v.email ≠ u.email) ∧
    db' = { db with nextId := db.nextId + 1,
                    users := { u with id := some db.nextId } :: db.users } := by
  unfold DB.insertUser at h
  by_cases h1 : u.errors = []
  · rw [if_pos h1] at h
    by_cases h2 : (db.users.any fun v => v.email = u.email) = true
    · rw [if_pos h2] at h
      exact Except.noConfusion h
    · rw [if_neg h2] at h
      injection h with h3
      refine ⟨h1, ?_, h3.symm⟩
      intro v hv he
      exact h2 (List.any_eq_true.mpr ⟨v, hv, by simpa using he⟩)
  · rw [if_neg h1] at h
    exact Except.noConfusion h

lemma insertImage_ok {db db' : DB} {r : PrescriptionImage} (h : db.insertImage r = .ok db') :
    r.errors = [] ∧ db.hasUserId r.user_id = true ∧
    db' = { db with nextId := db.nextId + 1,
                    images := { r with id := some db.nextId } :: db.images } := by
  unfold DB.insertImage at h
  by_cases h1 : r.errors = []
  · rw [if_pos h1] at h
    by_cases h2 : db.hasUserId r.user_id = true
    · rw [if_pos h2] at h
      injection h with h3
      exact ⟨h1, h2, h3.symm⟩
    · rw [if_neg h2] at h
      exact Except.noConfusion h
  · rw [if_neg h1] at h
    exact Except.noConfusion h

lemma insertSession_ok {db db' : DB} {s : AnalysisSession}
    (h : db.insertSession s = .ok db') :
    s.errors = [] ∧ db.hasUserId s.user_id = true ∧ db.hasImageId s.image_id = true ∧
    db' = { db with nextId := db.nextId + 1,
                    sessions := { s with id := some db.nextId } :: db.sessions } := by
  unfold DB.insertSession at h
  by_cases h1 : s.errors = []
  · rw [if_pos h1] at h
    by_cases h2 : db.hasUserId s.user_id = true
    · rw [if_pos h2] at h
      by_cases h3 : db.hasImageId s.image_id = true
      · rw [if_pos h3] at h
        injection h with h4
        exact ⟨h1, h2, h3, h4.symm⟩
      · rw [if_neg h3] at h
        exact Except.noConfusion h
    · rw [if_neg h2] at h
      exact Except.noConfusion h
  · rw [if_neg h1] at h
    exact Except.noConfusion h

lemma insertPrescription_ok {db db' : DB} {p : Prescription}
    (h : db.insertPrescription p = .ok db') :
    p.errors = [] ∧ db.hasImageId p.image_id = true ∧
    db.hasSessionId p.analysis_session_id = true ∧
    db' = { db with nextId := db.nextId + 1,
                    prescriptions := { p with id := some db.nextId } :: db.prescriptions } := by
  unfold DB.insertPrescription at h
  by_cases h1 : p.errors = []
  · rw [if_pos h1] at h
    by_cases h2 : db.hasImageId p.image_id = true
    · rw [if_pos h2] at h
      by_cases h3 : db.hasSessionId p.analysis_session_id = true
      · rw [if_pos h3] at h
        injection h with h4
        exact ⟨h1, h2, h3, h4.symm⟩
      · rw [if_neg h3] at h
        exact Except.noConfusion h
    · rw [if_neg h2] at h
      exact Except.noConfusion h
  · rw [if_neg h1] at h
    exact Except.noConfusion h

lemma insertMedication_ok {db db' : DB} {m : Medication}
    (h : db.insertMedication m = .ok db') :
    m.errors = [] ∧ db.hasPrescriptionId m.prescription_id = true ∧
    db' = { db with nextId := db.nextId + 1,
                    medications := { m with id := some db.nextId } :: db.medications } := by
  unfold DB.insertMedication at h
  by_cases h1 : m.errors = []
  · rw [if_pos h1] at h
    by_cases h2 : db.hasPrescriptionId m.prescription_id = true
    · rw [if_pos h2] at h
      injection h with h3
      exact ⟨h1, h2, h3.symm⟩
    · rw [if_neg h2] at h
      exact Except.noConfusion h
  · rw [if_neg h1] at h
    exact Except.noConfusion h

lemma insertMedication_succeeds {db : DB} {m : Medication} (h1 : m.errors = [])
    (h2 : db.hasPrescriptionId m.prescription_id = true) :
    db.insertMedication m = Except.ok
      { db with nextId := db.nextId + 1,
                medications := { m with id := some db.nextId } :: db.medications } := by
  unfold DB.insertMedication
  rw [if_pos h1, if_pos h2]

lemma insertUser_keeps_emailsUnique {db db' : DB} {u : User}
    (hok : db.insertUser u = .ok db') (hu : db.emailsUnique) : db'.emailsUnique := by
  obtain ⟨-, h2, rfl⟩ := insertUser_ok hok
  refine List.Pairwise.cons ?_ hu
  intro e he
  obtain ⟨v, hv, rfl⟩ := List.mem_map.mp he
  exact fun hEq => h2 v hv hEq.symm

lemma reachable_emailsUnique {db : DB} (h : DB.Reachable db) : db.emailsUnique := by
  induction h with
  | empty => simp [DB.emailsUnique, DB.empty]
  | user _ hok ih => exact insertUser_keeps_emailsUnique hok ih
  | image _ hok ih =>
      obtain ⟨-, -, rfl⟩ := insertImage_ok hok
      exact ih
  | session _ hok ih =>
      obtain ⟨-, -, -, rfl⟩ := insertSession_ok hok
      exact ih
  | prescription _ hok ih =>
      obtain ⟨-, -, -, rfl⟩ := insertPrescription_ok hok
      exact ih
  | medication _ hok ih =>
      obtain ⟨-, -, rfl⟩ := insertMedication_ok hok
      exact ih

lemma reachable_fkIntact {db : DB} (h : DB.Reachable db) : db.fkIntact := by
  induction h with
  | empty => simp [DB.fkIntact, DB.empty]
  | user _ hok ih =>
      obtain ⟨-, -, rfl⟩ := insertUser_ok hok
      obtain ⟨ih1, ih2, ih3, ih4⟩ := ih
      refine ⟨?_, ?_, ?_, ?_⟩
      · intro x hx
        exact rowsHaveId_mono _ _ _ _ (ih1 x hx)
      · intro x hx
        exact ⟨rowsHaveId_mono _ _ _ _ (ih2 x hx).1, (ih2 x hx).2⟩
      · exact ih3
      · exact ih4
  | image _ hok ih =>
      obtain ⟨-, hfk, rfl⟩ := insertImage_ok hok
      obtain ⟨ih1, ih2, ih3, ih4⟩ := ih
      refine ⟨?_, ?_, ?_, ?_⟩
      · intro x hx
        rcases List.mem_cons.mp hx with rfl | hx2
        · exact hfk
        · exact ih1 x hx2
      · intro x hx
        exact ⟨(ih2 x hx).1, rowsHaveId_mono _ _ _ _ (ih2 x hx).2⟩
      · intro x hx
        exact ⟨rowsHaveId_mono _ _ _ _ (ih3 x hx).1, (ih3 x hx).2⟩
      · exact ih4
  | session _ hok ih =>
      obtain ⟨-, hfk1, hfk2, rfl⟩ := insertSession_ok hok
      obtain ⟨ih1, ih2, ih3, ih4⟩ := ih
      refine ⟨?_, ?_, ?_, ?_⟩
      · exact ih1
      · intro x hx
        rcases List.mem_cons.mp hx with rfl | hx2
        · exact ⟨hfk1, hfk2⟩
        · exact ih2 x hx2
      · intro x hx
        exact ⟨(ih3 x hx).1, rowsHaveId_mono _ _ _ _ (ih3 x hx).2⟩
      · exact ih4
  | prescription _ hok ih =>
      obtain ⟨-, hfk1, hfk2, rfl⟩ := insertPrescription_ok hok
      obtain ⟨ih1, ih2, ih3, ih4⟩ := ih
      refine ⟨?_, ?_, ?_, ?_⟩
      · exact ih1
      · exact ih2
      · intro x hx
        rcases List.mem_cons.mp hx with rfl | hx2
        · exact ⟨hfk1, hfk2⟩
        · exact ih3 x hx2
      · intro x hx
        exact rowsHaveId_mono _ _ _ _ (ih4 x hx)
  | medication _ hok ih =>
      obtain ⟨-, hfk, rfl⟩ := insertMedication_ok hok
      obtain ⟨ih1, ih2, ih3, ih4⟩ := ih
      refine ⟨?_, ?_, ?_, ?_⟩
      · exact ih1
      · exact ih2
      · exact ih3
      · intro x hx
        rcases List.mem_cons.mp hx with rfl | hx2
        · exact hfk
        · exact ih4 x hx2

/-- C2: inserting a `User` whose email an existing row already carries fails with a
validation error naming `email`; a successful insert preserves email uniqueness; and
every reachable store state has pairwise distinct user emails. -/
theorem C2_email_uniqueness :
    (∀ (db : DB) (u v : User), u.errors = [] → v ∈ db.users → v.email = u.email →
        db.insertUser u = .error (.validation ["email"])) ∧
    (∀ (db db' : DB) (u : User), db.insertUser u = .ok db' →
        db.emailsUnique → db'.emailsUnique) ∧
    (∀ db : DB, DB.Reachable db → db.emailsUnique) := by
  refine ⟨?_, ?_, ?_⟩
  · intro db u v h1 hv he
    have hany : (db.users.any fun w => w.email = u.email) = true :=
      List.any_eq_true.mpr ⟨v, hv, by simpa using he⟩
    simp [DB.insertUser, h1, hany]
  · intro db db' u hok hu
    exact insertUser_keeps_emailsUnique hok hu
  · intro db h
    exact reachable_emailsUnique h

/-- Witness for C2 at a concrete store: a second user with the already-stored email
fails with the field named, and the one-user store (reachable from empty) has unique
emails. -/
theorem C2_email_uniqueness_witness :
    dbOneUser.insertUser (User.create "Bob" "jane@example.com" 5) =
      .error (.validation ["email"]) ∧
    dbOneUser.emailsUnique :=
  ⟨C2_email_uniqueness.1 dbOneUser (User.create "Bob" "jane@example.com" 5)
      { User.create "Jane Doe" "jane@example.com" 0 with id := some 1 }
      rfl (by simp [dbOneUser]) rfl,
   C2_email_uniqueness.2.2 dbOneUser
     (DB.Reachable.user (u := User.create "Jane Doe" "jane@example.com" 0)
       DB.Reachable.empty rfl)⟩

/-- C3: inserting a `Prescription` whose `image_id` or `analysis_session_id` has no
parent row fails with a `ReferentialError` naming the foreign key, and the error
leaves the store unwritten since no new state is produced; every reachable store
state has intact foreign keys in all tables. -/
theorem C3_referential_integrity :
    (∀ (db : DB) (p : Prescription), p.errors = [] →
        db.hasImageId p.image_id = false →
        db.insertPrescription p = .error (.referential "image_id")) ∧
    (∀ (db : DB) (p : Prescription), p.errors = [] →
        db.hasImageId p.image_id = true →
        db.hasSessionId p.analysis_session_id = false →
        db.insertPrescription p = .error (.referential "analysis_session_id")) ∧
    (∀ db : DB, DB.Reachable db → db.fkIntact) := by
  refine ⟨?_, ?_, ?_⟩
  · intro db p h1 h2
    simp [DB.insertPrescription, h1, h2]
  · intro db p h1 h2 h3
    simp [DB.insertPrescription, h1, h2, h3]
  · intro db h
    exact reachable_fkIntact h

/-- Witness for C3 at a concrete store: inserting a valid prescription into the empty
store fails referentially on `image_id`, and the empty store has intact foreign
keys. -/
theorem C3_referential_integrity_witness :
    DB.empty.insertPrescription samplePrescription = .error (.referential "image_id") ∧
    DB.empty.fkIntact :=
  ⟨C3_referential_integrity.1 DB.empty samplePrescription rfl rfl,
   C3_referential_integrity.2.2 DB.empty DB.Reachable.empty⟩

/-- C7: validation of `Medication` and `MedicationCreate` rejects a negative
`order_index`, naming the field, and accepts every non-negative value including the
default 0; two medications under one prescription persist whatever their
non-negative order indices, duplicates included; and listing the medications of a
prescription returns exactly its rows ordered by `order_index`. -/
theorem C7_order_index :
    (∀ m : Medication, m.order_index < 0 → "order_index" ∈ m.errors) ∧
    (∀ m : Medication, 0 ≤ m.order_index → "order_index" ∉ m.errors) ∧
    (∀ c : MedicationCreate, c.order_index < 0 → "order_index" ∈ c.errors) ∧
    (∀ c : MedicationCreate, 0 ≤ c.order_index → "order_index" ∉ c.errors) ∧
    (∀ name : String, (MedicationCreate.create name).order_index = 0) ∧
    (∀ (db : DB) (m1 m2 : Medication),
        m1.errors = [] → m2.errors = [] →
        db.hasPrescriptionId m1.prescription_id = true →
        m2.prescription_id = m1.prescription_id →
        ∃ db' db'', db.insertMedication m1 = .ok db' ∧
          db'.insertMedication m2 = .ok db'' ∧
          db''.medications =
            { m2 with id := some db'.nextId } ::
              { m1 with id := some db.nextId } :: db.medications) ∧
    (∀ (db : DB) (pid : Int), List.Sorted Medication.le (db.listMedications pid)) ∧
    (∀ (db : DB) (pid : Int),
        (db.listMedications pid).Perm
          (db.medications.filter fun m => m.prescription_id = pid)) := by
  refine ⟨?_, ?_, ?_, ?_, ?_, ?_, ?_, ?_⟩
  · intro m h
    simp [Medication.errors, mem_fieldErr, not_le.mpr h]
  · intro m h
    simp [Medication.errors, mem_fieldErr, h]
  · intro c h
    simp [MedicationCreate.errors, mem_fieldErr, not_le.mpr h]
  · intro c h
    simp [MedicationCreate.errors, mem_fieldErr, h]
  · intro name
    rfl
  · intro db m1 m2 h1 h2 hp hpid
    refine ⟨_, _, insertMedication_succeeds h1 hp,
            insertMedication_succeeds h2 ?_, rfl⟩
    rw [hpid]
    exact hp
  · intro db pid
    exact List.sorted_insertionSort Medication.le _
  · intro db pid
    exact List.perm_insertionSort Medication.le _

/-- Witness for C7 at concrete inputs: order_index -1 and -2 are rejected with the
field named; the default 0 is accepted; two copies of the same medication row (equal
order indices) both persist under the stored prescription; and the resulting listing
is sorted. -/
theorem C7_order_index_witness :
    ("order_index" ∈ Medication.errors { sampleMedication with order_index := -1 }) ∧
    ("order_index" ∉ Medication.errors sampleMedication) ∧
    ("order_index" ∈ MedicationCreate.errors
        { MedicationCreate.create "Amoxicillin" with order_index := -2 }) ∧
    ("order_index" ∉ MedicationCreate.errors (MedicationCreate.create "Amoxicillin")) ∧
    ((MedicationCreate.create "Amoxicillin").order_index = 0) ∧
    (∃ db' db'',
        dbOnePrescription.insertMedication { sampleMedication with prescription_id := 4 } =
          .ok db' ∧
        db'.insertMedication { sampleMedication with prescription_id := 4 } = .ok db'' ∧
        db''.medications =
          { sampleMedication with prescription_id := 4, id := some db'.nextId } ::
            { sampleMedication with prescription_id := 4,
                                    id := some dbOnePrescription.nextId } ::
            dbOnePrescription.medications) ∧
    List.Sorted Medication.le (dbOnePrescription.listMedications 4) :=
  ⟨C7_order_index.1 _ (by decide),
   C7_order_index.2.1 _ (by decide),
   C7_order_index.2.2.1 _ (by decide),
   C7_order_index.2.2.2.1 _ (by decide),
   C7_order_index.2.2.2.2.1 "Amoxicillin",
   C7_order_index.2.2.2.2.2.1 dbOnePrescription _ _ rfl rfl (by decide) rfl,
   C7_order_index.2.2.2.2.2.2.1 dbOnePrescription 4⟩

end PrescriptionAnalyzer
